import Mathlib

/-!
Verification of the compliance scoring and leaderboard ranking engine of the
`companion` repository (Django apps `drivewise` and `expensetrackerapp`).

The embedding models:
* `ComplianceRecord.calculate_compliance_score` and the overridden `save`
  (identical in `drivewise/models.py` and `expensetrackerapp/models.py`);
* the record construction and token-award logic of `process_sensor_data`
  in `drivewise/views.py` (Vehicle-keyed) and `expensetrackerapp/views.py`
  (DrivingSession-keyed);
* the `spend_tokens` endpoints of both apps;
* `Vehicle.total_violations` / `total_trips` / `compliance_rate`
  (`drivewise/models.py`), over an explicit list of the vehicle's records;
* `Leaderboard.update_all_rankings` (`drivewise/models.py`), over an
  explicit list of leaderboard entries.

Python `None`-able integer columns become `Option Int`; Python truthiness of
such a column (`if self.speed_limit and self.actual_speed:`) is `some n` with
`n ≠ 0`.  Django's `order_by` is modelled by `List.mergeSort` on the same
composite key.  Python's `round(x, 2)` on the exact rational value is modelled
by `round2` below.
-/

namespace Companion

/-- Vehicle.VEHICLE_TYPES (`drivewise/models.py`, `expensetrackerapp/models.py`). -/
inductive VehicleType
  | two_wheeler
  | four_wheeler
  | commercial
deriving DecidableEq, Repr

/-- ComplianceRecord.VIOLATION_TYPES (both `models.py` files). -/
inductive ViolationType
  | speed_violation
  | horn_violation
  | seatbelt_violation
  | stop_violation
  | no_violation
deriving DecidableEq, Repr

/-- ComplianceRecord.SEVERITY_LEVELS (both `models.py` files). -/
inductive Severity
  | low
  | medium
  | high
  | critical
deriving DecidableEq, Repr

/-- Python truthiness of a nullable integer column: `None` and `0` are falsy,
every other integer is truthy. -/
def truthyOptInt : Option Int → Bool
  | none => false
  | some n => n != 0

/-- The fields of a `ComplianceRecord` row relevant to scoring and violation
counting (both `models.py` files; identical field lists).  `speed_limit` and
`actual_speed` are nullable integer columns; the four flags default to `False`;
`violation_type` defaults to `'no_violation'`, `severity` to `'low'`, and
`compliance_score` to `100`. -/
structure ComplianceRecord where
  speed_limit : Option Int
  actual_speed : Option Int
  no_horn_zone : Bool
  horn_applied : Bool
  seatbelt_required : Bool
  seatbelt_worn : Bool
  violation_type : ViolationType
  severity : Severity
  compliance_score : Int
deriving DecidableEq, Repr

/-- `ComplianceRecord.calculate_compliance_score`
(`drivewise/models.py` lines 171-190; the method body in
`expensetrackerapp/models.py` lines 103-122 is textually identical).

```
score = 100
if self.speed_limit and self.actual_speed:
    if self.actual_speed > self.speed_limit:
        score -= 20
        if self.actual_speed > self.speed_limit + 20:
            score -= 10
if self.no_horn_zone and self.horn_applied:
    score -= 15
if self.seatbelt_required and not self.seatbelt_worn:
    score -= 25
return max(0, score)
``` -/
def calculate_compliance_score (r : ComplianceRecord) : Int :=
  let score : Int := 100
  let score :=
    if truthyOptInt r.speed_limit && truthyOptInt r.actual_speed then
      if r.actual_speed.getD 0 > r.speed_limit.getD 0 then
        if r.actual_speed.getD 0 > r.speed_limit.getD 0 + 20 then
          score - 20 - 10
        else
          score - 20
      else score
    else score
  let score :=
    if r.no_horn_zone && r.horn_applied then score - 15 else score
  let score :=
    if r.seatbelt_required && !r.seatbelt_worn then score - 25 else score
  max 0 score

/-- `ComplianceRecord.save` (both `models.py` files): recomputes
`compliance_score` from the record's own fields, then persists. -/
def ComplianceRecord.save (r : ComplianceRecord) : ComplianceRecord :=
  { r with compliance_score := calculate_compliance_score r }

/-! Claim-side penalty decomposition, following the wording of the spec
(§4.1): each penalty is `0` when its branch does not apply. -/

/-- Spec §4.1 speed penalty: 20 for speeding, 30 for speeding by more than 20
over the limit; not applicable when either column is missing or zero. -/
def speedPenalty (r : ComplianceRecord) : Int :=
  if truthyOptInt r.speed_limit && truthyOptInt r.actual_speed then
    if r.actual_speed.getD 0 > r.speed_limit.getD 0 then
      if r.actual_speed.getD 0 > r.speed_limit.getD 0 + 20 then 30 else 20
    else 0
  else 0

/-- Spec §4.1 horn penalty: 15 when the zone prohibits horn use and the horn
was applied. -/
def hornPenalty (r : ComplianceRecord) : Int :=
  if r.no_horn_zone && r.horn_applied then 15 else 0

/-- Spec §4.1 seatbelt penalty: 25 when a seatbelt is required and not worn. -/
def seatbeltPenalty (r : ComplianceRecord) : Int :=
  if r.seatbelt_required && !r.seatbelt_worn then 25 else 0

/-- One row of `RewardToken` (both `models.py` files): cumulative earned and
spent counters. -/
structure RewardToken where
  tokens_earned : Int
  tokens_spent : Int
deriving DecidableEq, Repr

/-- `RewardToken.tokens_available` (both `models.py` files). -/
def tokens_available (t : RewardToken) : Int :=
  t.tokens_earned - t.tokens_spent

/-- The validated payload fields of `process_sensor_data` in
`drivewise/views.py` that influence the created compliance record:
`sign_type` and the optional `drive_value` (read with `data.get('drive_value', 0)`). -/
structure SensorEventDW where
  sign_type : String
  drive_value : Option Int
deriving DecidableEq, Repr

/-- Field assignment of `ComplianceRecord.objects.create(...)` in
`drivewise/views.py` lines 49-58: for a `speed_limit` event both
`speed_limit` and `actual_speed` are set to the event's `drive_value`
(default 0), otherwise both are `None`; `no_horn_zone` marks `no_horn`
events; `horn_applied` / `seatbelt_worn` compare `drive_value` to 1 for
their sign types; `seatbelt_required` holds for four-wheelers.
`violation_type` and `severity` are not passed and keep their model
defaults. -/
def dwRecordFields (e : SensorEventDW) (vehicleType : VehicleType) :
    ComplianceRecord where
  speed_limit := if e.sign_type = "speed_limit" then some (e.drive_value.getD 0) else none
  actual_speed := if e.sign_type = "speed_limit" then some (e.drive_value.getD 0) else none
  no_horn_zone := e.sign_type = "no_horn"
  horn_applied := if e.sign_type = "no_horn" then e.drive_value.getD 0 == 1 else false
  seatbelt_required := vehicleType = VehicleType.four_wheeler
  seatbelt_worn := if e.sign_type = "seatbelt" then e.drive_value.getD 0 == 1 else false
  violation_type := ViolationType.no_violation
  severity := Severity.low
  compliance_score := 100

/-- `process_sensor_data` in `drivewise/views.py` lines 49-80, restricted to
its persistent effects: creates the compliance record (Django `create` runs
the overridden `save`, which recomputes the score), recomputes the score at
line 61, awards tokens by the `>=90 → 10 / >=70 → 5 / >=50 → 2 / else 0`
branch, and `get_or_create`s the vehicle's `RewardToken` with
`tokens_earned = delta` (and the model default `tokens_spent = 0`) or adds
the delta to the existing row.  Returns (record, updated ledger, delta). -/
def process_sensor_data_dw (e : SensorEventDW) (vehicleType : VehicleType)
    (ledger : Option RewardToken) : ComplianceRecord × RewardToken × Int :=
  let record := (dwRecordFields e vehicleType).save
  let compliance_score := calculate_compliance_score record
  let tokens_earned : Int :=
    if compliance_score ≥ 90 then 10
    else if compliance_score ≥ 70 then 5
    else if compliance_score ≥ 50 then 2
    else 0
  let ledger' :=
    match ledger with
    | none => { tokens_earned := tokens_earned, tokens_spent := 0 }
    | some t => { t with tokens_earned := t.tokens_earned + tokens_earned }
  (record, ledger', tokens_earned)

/-- The validated payload fields of `process_sensor_data` in
`expensetrackerapp/views.py` that influence the created compliance record
(`SensorDataSerializer` in `expensetrackerapp/serializers.py`): `sign_type`,
the optional string `sign_value`, the optional `actual_speed`, and the
boolean flags `horn_applied` / `seatbelt_worn` (serializer default `False`). -/
structure SensorEventET where
  sign_type : String
  sign_value : Option String
  actual_speed : Option Int
  horn_applied : Bool
  seatbelt_worn : Bool
deriving DecidableEq, Repr

/-- One decimal digit, or `none`. -/
def pyDigit? (c : Char) : Option Nat :=
  if c = '0' then some 0 else if c = '1' then some 1 else if c = '2' then some 2
  else if c = '3' then some 3 else if c = '4' then some 4 else if c = '5' then some 5
  else if c = '6' then some 6 else if c = '7' then some 7 else if c = '8' then some 8
  else if c = '9' then some 9 else none

/-- Accumulate a decimal numeral; `none` on any non-digit character. -/
def pyNatAux : List Char → Nat → Option Nat
  | [], acc => some acc
  | c :: cs, acc =>
    match pyDigit? c with
    | none => none
    | some d => pyNatAux cs (acc * 10 + d)

/-- A decimal integer numeral with an optional leading minus sign. -/
def pyIntOfChars : List Char → Option Int
  | [] => none
  | '-' :: cs =>
    match cs with
    | [] => none
    | _ => (pyNatAux cs 0).map fun n => -(n : Int)
  | cs => (pyNatAux cs 0).map fun n => (n : Int)

/-- Python `int(...)` applied to a string, as used at
`expensetrackerapp/views.py` line 58 (the sign-and-digits core; Python also
tolerates surrounding whitespace and a `+` sign, which no claim exercises);
a non-numeric string raises `ValueError`, which the surrounding `try` turns
into an error response. -/
def pyInt (s : String) : Except String Int :=
  match pyIntOfChars s.data with
  | some n => Except.ok n
  | none => Except.error "invalid literal for int()"

/-- Field assignment of `ComplianceRecord.objects.create(...)` in
`expensetrackerapp/views.py` lines 55-65: `speed_limit` is
`int(sign_value)` when `sign_value` is truthy (present and non-empty) and
the sign is a `speed_limit` sign, else `None`; `actual_speed`,
`horn_applied` and `seatbelt_worn` come straight from the payload;
`no_horn_zone` marks `no_horn` events; `seatbelt_required` holds for
four-wheelers.  `violation_type` and `severity` keep their model defaults. -/
def etRecordFields (e : SensorEventET) (vehicleType : VehicleType) :
    Except String ComplianceRecord :=
  let speedLimitCol : Except String (Option Int) :=
    if (match e.sign_value with | some v => v != "" | none => false)
        && e.sign_type == "speed_limit" then
      match pyInt (e.sign_value.getD "") with
      | Except.error s => Except.error s
      | Except.ok n => Except.ok (some n)
    else
      Except.ok none
  match speedLimitCol with
  | Except.error s => Except.error s
  | Except.ok speed_limit =>
    Except.ok
      { speed_limit := speed_limit
        actual_speed := e.actual_speed
        no_horn_zone := e.sign_type = "no_horn"
        horn_applied := e.horn_applied
        seatbelt_required := vehicleType = VehicleType.four_wheeler
        seatbelt_worn := e.seatbelt_worn
        violation_type := ViolationType.no_violation
        severity := Severity.low
        compliance_score := 100 }

/-- `process_sensor_data` in `expensetrackerapp/views.py` lines 55-83,
restricted to its persistent effects: creates the compliance record
(`create` runs the overridden `save`), awards tokens from the stored
`compliance_score` by the `>=90 → 5 / >=80 → 3 / >=70 → 1 / else 0` branch,
and `get_or_create`s the vehicle's `RewardToken` with
`tokens_earned = delta` or adds the delta to the existing row. -/
def process_sensor_data_et (e : SensorEventET) (vehicleType : VehicleType)
    (ledger : Option RewardToken) :
    Except String (ComplianceRecord × RewardToken × Int) :=
  match etRecordFields e vehicleType with
  | Except.error s => Except.error s
  | Except.ok fields =>
    let record := fields.save
    let tokens_earned : Int :=
      if record.compliance_score ≥ 90 then 5
      else if record.compliance_score ≥ 80 then 3
      else if record.compliance_score ≥ 70 then 1
      else 0
    let ledger' :=
      match ledger with
      | none => ({ tokens_earned := tokens_earned, tokens_spent := 0 } : RewardToken)
      | some t => { t with tokens_earned := t.tokens_earned + tokens_earned }
    Except.ok (record, ledger', tokens_earned)

/-- `spend_tokens` in `drivewise/views.py` lines 181-191: reject when
`tokens_available < amount`, otherwise `tokens_spent += amount`. -/
def spend_tokens_dw (t : RewardToken) (amount : Int) :
    Except String RewardToken :=
  if tokens_available t < amount then
    Except.error "Insufficient tokens"
  else
    Except.ok { t with tokens_spent := t.tokens_spent + amount }

/-- `spend_tokens` in `expensetrackerapp/views.py` lines 156-164: reject when
`tokens_to_spend > tokens_available`, otherwise `tokens_spent += tokens_to_spend`. -/
def spend_tokens_et (t : RewardToken) (tokens_to_spend : Int) :
    Except String RewardToken :=
  if tokens_to_spend > tokens_available t then
    Except.error "Insufficient tokens available"
  else
    Except.ok { t with tokens_spent := t.tokens_spent + tokens_to_spend }

/-! Claim-side token tier tables (spec §4.2). -/

/-- Tier set A (spec §4.2): score≥90 → 10, score≥70 → 5, score≥50 → 2, else 0. -/
def tierA (score : Int) : Int :=
  if score ≥ 90 then 10 else if score ≥ 70 then 5 else if score ≥ 50 then 2 else 0

/-- Tier set B (spec §4.2): score≥90 → 5, score≥80 → 3, score≥70 → 1, else 0. -/
def tierB (score : Int) : Int :=
  if score ≥ 90 then 5 else if score ≥ 80 then 3 else if score ≥ 70 then 1 else 0

/-! Vehicle aggregate (`drivewise/models.py` lines 42-80), phrased over the
explicit list of the vehicle's compliance records that the Django querysets
range over. -/

/-- `Vehicle.total_violations` (`drivewise/models.py` lines 42-48): count of
the vehicle's records whose `violation_type` is one of `speed_violation`,
`horn_violation`, `seatbelt_violation`. -/
def total_violations (records : List ComplianceRecord) : Nat :=
  (records.filter fun r =>
    r.violation_type = ViolationType.speed_violation
      ∨ r.violation_type = ViolationType.horn_violation
      ∨ r.violation_type = ViolationType.seatbelt_violation).length

/-- `Vehicle.total_trips` (`drivewise/models.py` lines 50-55): count of all of
the vehicle's records. -/
def total_trips (records : List ComplianceRecord) : Nat :=
  records.length

/-- Python's `round(x, 2)` on the exact rational value of `x`: round
`x * 100` to the nearest integer and divide by 100.  (`Int.round` resolves
exact halves upward where CPython resolves them to even; no claim in this
development depends on an exact half at the second decimal.) -/
def round2 (q : ℚ) : ℚ :=
  ((round (q * 100) : ℤ) : ℚ) / 100

/-- `Vehicle.compliance_rate` (`drivewise/models.py` lines 57-64): `100.0`
with no records, else `round(((total_trips - violations) / total_trips) * 100, 2)`. -/
def compliance_rate (records : List ComplianceRecord) : ℚ :=
  if total_trips records = 0 then 100
  else
    round2 ((((total_trips records : ℚ) - (total_violations records : ℚ))
      / (total_trips records : ℚ)) * 100)

/-- One `Leaderboard` row (`drivewise/models.py` lines 197-206), restricted to
the fields the ranking pass reads and writes. -/
structure LeaderboardEntry where
  total_trips : Nat
  total_violations : Nat
  compliance_rate : ℚ
  rank : Nat
deriving DecidableEq, Repr

/-- The composite ordering used by
`order_by('-total_trips', 'total_violations', '-compliance_rate')` in
`Leaderboard.update_all_rankings` (`drivewise/models.py` lines 248-250):
`a` sorts at or before `b` when `a` has strictly more trips, or equal trips
and strictly fewer violations, or equal trips and violations and at least
the compliance rate of `b`. -/
def lbKeyLE (a b : LeaderboardEntry) : Bool :=
  decide (b.total_trips < a.total_trips
    ∨ (a.total_trips = b.total_trips
      ∧ (a.total_violations < b.total_violations
        ∨ (a.total_violations = b.total_violations
          ∧ b.compliance_rate ≤ a.compliance_rate))))

/-- The rank-persisting loop `for rank, entry in enumerate(leaderboard_entries, 1)`
of `Leaderboard.update_all_rankings` (`drivewise/models.py` lines 252-254):
write `rank = n, n+1, ...` onto the entries in order. -/
def assignRanks (n : Nat) : List LeaderboardEntry → List LeaderboardEntry
  | [] => []
  | e :: es => { e with rank := n } :: assignRanks (n + 1) es

/-- The rank-assignment pass of `Leaderboard.update_all_rankings`
(`drivewise/models.py` lines 244-254): order every leaderboard entry by the
composite key `('-total_trips', 'total_violations', '-compliance_rate')` and
persist ranks `1, 2, ...` in that order. -/
def update_all_rankings (entries : List LeaderboardEntry) :
    List LeaderboardEntry :=
  assignRanks 1 (entries.mergeSort lbKeyLE)

/-! ### Helper lemmas shared by several claim theorems -/

/-- The score computation is the clamped sum of the three penalties. -/
theorem score_eq_clamped_penalty_sum (r : ComplianceRecord) :
    calculate_compliance_score r
      = max 0 (100 - (speedPenalty r + hornPenalty r + seatbeltPenalty r)) := by
  unfold calculate_compliance_score speedPenalty hornPenalty seatbeltPenalty
  rcases r with ⟨sl, sp, nh, ha, sr, sw, vt, sev, cs⟩
  rcases sl with _ | sl <;> rcases sp with _ | sp <;>
    simp only [truthyOptInt, Option.getD] <;>
    split_ifs <;> simp_all

theorem speedPenalty_nonneg (r : ComplianceRecord) : 0 ≤ speedPenalty r := by
  unfold speedPenalty; split_ifs <;> norm_num

theorem hornPenalty_nonneg (r : ComplianceRecord) : 0 ≤ hornPenalty r := by
  unfold hornPenalty; split_ifs <;> norm_num

theorem seatbeltPenalty_nonneg (r : ComplianceRecord) :
    0 ≤ seatbeltPenalty r := by
  unfold seatbeltPenalty; split_ifs <;> norm_num

/-- The stored `compliance_score` field has no influence on the recomputed
score. -/
theorem calculate_score_set_score (r : ComplianceRecord) (s : Int) :
    calculate_compliance_score { r with compliance_score := s }
      = calculate_compliance_score r := by
  rcases r with ⟨sl, sp, nh, ha, sr, sw, vt, sev, cs⟩; rfl

theorem save_compliance_score (r : ComplianceRecord) :
    (ComplianceRecord.save r).compliance_score
      = calculate_compliance_score r := rfl

theorem calculate_score_save (r : ComplianceRecord) :
    calculate_compliance_score (ComplianceRecord.save r)
      = calculate_compliance_score r :=
  calculate_score_set_score r _

/-! ### Claim theorems -/

/-- **C1.** `calculate_compliance_score` returns `max 0 (100 - p)` where `p`
is the sum of the three applicable penalties (speed 20, plus 10 more beyond 20
over the limit; horn 15; seatbelt 25); a missing or zero
`speed_limit`/`actual_speed` contributes no speed penalty (it is inside
`speedPenalty`'s truthiness guard), and the result always lies in `[0, 100]`. -/
theorem C1_score_is_clamped_penalty_sum (r : ComplianceRecord) :
    calculate_compliance_score r
      = max 0 (100 - (speedPenalty r + hornPenalty r + seatbeltPenalty r))
    ∧ 0 ≤ calculate_compliance_score r
    ∧ calculate_compliance_score r ≤ 100 := by
  refine ⟨score_eq_clamped_penalty_sum r, ?_, ?_⟩
  · rw [score_eq_clamped_penalty_sum]; exact le_max_left _ _
  · rw [score_eq_clamped_penalty_sum]
    have h1 := speedPenalty_nonneg r
    have h2 := hornPenalty_nonneg r
    have h3 := seatbeltPenalty_nonneg r
    refine max_le (by norm_num) (by omega)

/-- **C2** (code bug evaluated at the failing input).  A drivewise `no_horn`
sensor event with `drive_value = 1` for a four-wheeler produces a record with
two applicable penalties (horn 15 and seatbelt 25, persisted score 60), yet
the persisted record still carries the field defaults
`violation_type = 'no_violation'` and `severity = 'low'`: no code path ever
assigns either field, so no primary-violation classification happens. -/
theorem C2_penalised_record_keeps_no_violation :
    hornPenalty (process_sensor_data_dw ⟨"no_horn", some 1⟩
        VehicleType.four_wheeler none).1
      + seatbeltPenalty (process_sensor_data_dw ⟨"no_horn", some 1⟩
        VehicleType.four_wheeler none).1 = 40
    ∧ (process_sensor_data_dw ⟨"no_horn", some 1⟩
        VehicleType.four_wheeler none).1.compliance_score = 60
    ∧ (process_sensor_data_dw ⟨"no_horn", some 1⟩
        VehicleType.four_wheeler none).1.violation_type
      = ViolationType.no_violation
    ∧ (process_sensor_data_dw ⟨"no_horn", some 1⟩
        VehicleType.four_wheeler none).1.severity = Severity.low := by
  decide

/-- **C3.** The token delta of each sensor-processing endpoint is a pure
function of the freshly computed compliance score of the created record:
tier table A for the Vehicle-keyed implementation (`drivewise`), tier table B
for the session-keyed one (`expensetrackerapp`); the delta is added to the
existing ledger's `tokens_earned`, and a ledger with `tokens_earned = delta`
(and `tokens_spent = 0`) is created when none exists yet. -/
theorem C3_token_award_tiers (e : SensorEventDW) (vt : VehicleType)
    (ledger : Option RewardToken)
    (e' : SensorEventET) (vt' : VehicleType) (ledger' : Option RewardToken)
    (out : ComplianceRecord × RewardToken × Int)
    (h : process_sensor_data_et e' vt' ledger' = Except.ok out) :
    (process_sensor_data_dw e vt ledger).2.2
        = tierA (calculate_compliance_score (process_sensor_data_dw e vt ledger).1)
    ∧ (ledger = none →
        (process_sensor_data_dw e vt ledger).2.1
          = { tokens_earned := (process_sensor_data_dw e vt ledger).2.2,
              tokens_spent := 0 })
    ∧ (∀ t, ledger = some t →
        (process_sensor_data_dw e vt ledger).2.1
          = { t with tokens_earned :=
                t.tokens_earned + (process_sensor_data_dw e vt ledger).2.2 })
    ∧ out.2.2 = tierB (calculate_compliance_score out.1)
    ∧ (ledger' = none →
        out.2.1 = { tokens_earned := out.2.2, tokens_spent := 0 })
    ∧ (∀ t, ledger' = some t →
        out.2.1 = { t with tokens_earned := t.tokens_earned + out.2.2 }) := by
  cases het : etRecordFields e' vt' with
  | error s =>
    rw [process_sensor_data_et, het] at h
    simp at h
  | ok fields =>
    rw [process_sensor_data_et, het] at h
    simp only [Except.ok.injEq] at h
    subst h
    refine ⟨?_, ?_, ?_, ?_, ?_, ?_⟩
    · simp only [process_sensor_data_dw, tierA, calculate_score_save]
    · intro hl; subst hl; rfl
    · intro t hl; subst hl; rfl
    · simp only [tierB, save_compliance_score, calculate_score_save]
    · intro hl; subst hl; rfl
    · intro t hl; subst hl; rfl

/-- Witness for C3 at concrete inputs: an `other` event on both endpoints
(score 100), with no pre-existing ledger. -/
theorem C3_token_award_tiers_witness :
    (process_sensor_data_dw ⟨"other", none⟩ VehicleType.two_wheeler none).2.2
      = tierA (calculate_compliance_score
          (process_sensor_data_dw ⟨"other", none⟩ VehicleType.two_wheeler none).1)
    ∧ ((⟨⟨none, none, false, false, false, false, ViolationType.no_violation,
          Severity.low, 100⟩, ⟨5, 0⟩, 5⟩ :
        ComplianceRecord × RewardToken × Int)).2.2
      = tierB (calculate_compliance_score
          ((⟨⟨none, none, false, false, false, false, ViolationType.no_violation,
            Severity.low, 100⟩, ⟨5, 0⟩, 5⟩ :
          ComplianceRecord × RewardToken × Int)).1) := by
  have h := C3_token_award_tiers ⟨"other", none⟩ VehicleType.two_wheeler none
    ⟨"other", none, none, false, false⟩ VehicleType.two_wheeler none
    ⟨⟨none, none, false, false, false, false, ViolationType.no_violation,
      Severity.low, 100⟩, ⟨5, 0⟩, 5⟩ (by rfl)
  exact ⟨h.1, h.2.2.2.1⟩

/-- **C4.** Both `spend_tokens` endpoints reject a request whose amount
exceeds the available balance with an error and no mutation, and otherwise
increase `tokens_spent` by exactly the requested amount, leaving
`tokens_earned` untouched; a spend of exactly the available balance
succeeds. -/
theorem C4_spend_checks_balance (t : RewardToken) (a : Int) :
    (tokens_available t < a →
      spend_tokens_dw t a = Except.error "Insufficient tokens"
      ∧ spend_tokens_et t a = Except.error "Insufficient tokens available")
    ∧ (a ≤ tokens_available t →
      spend_tokens_dw t a
          = Except.ok { t with tokens_spent := t.tokens_spent + a }
      ∧ spend_tokens_et t a
          = Except.ok { t with tokens_spent := t.tokens_spent + a })
    ∧ spend_tokens_dw t (tokens_available t)
        = Except.ok { t with tokens_spent := t.tokens_spent + tokens_available t }
    ∧ spend_tokens_et t (tokens_available t)
        = Except.ok { t with tokens_spent := t.tokens_spent + tokens_available t } := by
  refine ⟨fun h => ⟨?_, ?_⟩, fun h => ⟨?_, ?_⟩, ?_, ?_⟩
  · rw [spend_tokens_dw, if_pos h]
  · rw [spend_tokens_et, if_pos h]
  · rw [spend_tokens_dw, if_neg (not_lt.mpr h)]
  · rw [spend_tokens_et, if_neg (not_lt.mpr h)]
  · rw [spend_tokens_dw, if_neg (lt_irrefl _)]
  · rw [spend_tokens_et, if_neg (lt_irrefl _)]

/-- Witness for C4 on the ledger `(earned, spent) = (10, 3)` (balance 7):
spending 8 errors, spending 7 — the exact balance — succeeds. -/
theorem C4_spend_checks_balance_witness :
    spend_tokens_dw ⟨10, 3⟩ 8 = Except.error "Insufficient tokens"
    ∧ spend_tokens_dw ⟨10, 3⟩ 7 = Except.ok ⟨10, 10⟩
    ∧ spend_tokens_et ⟨10, 3⟩ 8 = Except.error "Insufficient tokens available"
    ∧ spend_tokens_et ⟨10, 3⟩ 7 = Except.ok ⟨10, 10⟩ :=
  ⟨((C4_spend_checks_balance ⟨10, 3⟩ 8).1 (by decide)).1,
   ((C4_spend_checks_balance ⟨10, 3⟩ 7).2.1 (by decide)).1,
   ((C4_spend_checks_balance ⟨10, 3⟩ 8).1 (by decide)).2,
   ((C4_spend_checks_balance ⟨10, 3⟩ 7).2.1 (by decide)).2⟩

/-- **C5.** `total_violations` counts exactly the records whose
`violation_type` lies in `{speed_violation, horn_violation,
seatbelt_violation}` — a `stop_violation` (or `no_violation`) record adds a
trip but no violation — and `compliance_rate` is `100.0` with zero records
and otherwise `round(((total_trips - total_violations) / total_trips) * 100, 2)`. -/
theorem C5_compliance_rate_formula (records : List ComplianceRecord) :
    total_violations records
      = records.countP (fun r => decide (r.violation_type ∈
          [ViolationType.speed_violation, ViolationType.horn_violation,
            ViolationType.seatbelt_violation]))
    ∧ (∀ r : ComplianceRecord,
        r.violation_type = ViolationType.stop_violation
          ∨ r.violation_type = ViolationType.no_violation →
        total_violations (r :: records) = total_violations records)
    ∧ (total_trips records = 0 → compliance_rate records = 100)
    ∧ (total_trips records ≠ 0 →
        compliance_rate records
          = round2 ((((total_trips records : ℚ) - (total_violations records : ℚ))
              / (total_trips records : ℚ)) * 100)) := by
  refine ⟨?_, ?_, ?_, ?_⟩
  · rw [total_violations, List.countP_eq_length_filter]
    congr 1
    apply List.filter_congr
    intro r _
    simp [List.mem_cons]
  · intro r hr
    rcases hr with hr | hr <;>
      simp [total_violations, List.filter_cons, hr]
  · intro h
    simp [compliance_rate, h]
  · intro h
    simp [compliance_rate, h]

/-- Witness for C5: the empty history has rate `100`, and the two-record
history (one `stop_violation`, one `speed_violation`) obeys the formula. -/
theorem C5_compliance_rate_formula_witness :
    compliance_rate ([] : List ComplianceRecord) = 100
    ∧ compliance_rate
        [⟨none, none, false, false, false, false, ViolationType.stop_violation,
          Severity.low, 100⟩,
         ⟨none, none, false, false, false, false, ViolationType.speed_violation,
          Severity.low, 80⟩]
      = round2 ((((total_trips
            [⟨none, none, false, false, false, false, ViolationType.stop_violation,
              Severity.low, 100⟩,
             ⟨none, none, false, false, false, false, ViolationType.speed_violation,
              Severity.low, 80⟩] : ℚ)
          - (total_violations
            [⟨none, none, false, false, false, false, ViolationType.stop_violation,
              Severity.low, 100⟩,
             ⟨none, none, false, false, false, false, ViolationType.speed_violation,
              Severity.low, 80⟩] : ℚ))
          / (total_trips
            [⟨none, none, false, false, false, false, ViolationType.stop_violation,
              Severity.low, 100⟩,
             ⟨none, none, false, false, false, false, ViolationType.speed_violation,
              Severity.low, 80⟩] : ℚ)) * 100) :=
  ⟨(C5_compliance_rate_formula []).2.2.1 rfl,
   (C5_compliance_rate_formula _).2.2.2 (by decide)⟩

/-- **C7.** Persistence always recomputes `compliance_score` from the
record's own stored fields: `save` overwrites the score with
`calculate_compliance_score`, and a caller-supplied score value `s` has no
influence on the persisted record. -/
theorem C7_save_recomputes_score (r : ComplianceRecord) (s : Int) :
    ComplianceRecord.save { r with compliance_score := s }
        = ComplianceRecord.save r
    ∧ (ComplianceRecord.save r).compliance_score
        = calculate_compliance_score r := by
  refine ⟨?_, rfl⟩
  simp [ComplianceRecord.save, calculate_score_set_score]

/-- The composite leaderboard key is total. -/
theorem lbKeyLE_total (a b : LeaderboardEntry) :
    (lbKeyLE a b || lbKeyLE b a) = true := by
  simp only [lbKeyLE, Bool.or_eq_true, decide_eq_true_eq]
  rcases Nat.lt_trichotomy a.total_trips b.total_trips with h | h | h
  · exact Or.inr (Or.inl h)
  · rcases Nat.lt_trichotomy a.total_violations b.total_violations with h2 | h2 | h2
    · exact Or.inl (Or.inr ⟨h, Or.inl h2⟩)
    · rcases le_total b.compliance_rate a.compliance_rate with h3 | h3
      · exact Or.inl (Or.inr ⟨h, Or.inr ⟨h2, h3⟩⟩)
      · exact Or.inr (Or.inr ⟨h.symm, Or.inr ⟨h2.symm, h3⟩⟩)
    · exact Or.inr (Or.inr ⟨h.symm, Or.inl h2⟩)
  · exact Or.inl (Or.inl h)

/-- The composite leaderboard key is transitive. -/
theorem lbKeyLE_trans (a b c : LeaderboardEntry) :
    lbKeyLE a b = true → lbKeyLE b c = true → lbKeyLE a c = true := by
  simp only [lbKeyLE, decide_eq_true_eq]
  rintro (h1 | ⟨e1, h1⟩) (h2 | ⟨e2, h2⟩)
  · exact Or.inl (lt_trans h2 h1)
  · exact Or.inl (e2 ▸ h1)
  · exact Or.inl (e1 ▸ h2)
  · refine Or.inr ⟨e1.trans e2, ?_⟩
    rcases h1 with h1 | ⟨f1, g1⟩ <;> rcases h2 with h2 | ⟨f2, g2⟩
    · exact Or.inl (by omega)
    · exact Or.inl (by omega)
    · exact Or.inl (by omega)
    · exact Or.inr ⟨f1.trans f2, le_trans g2 g1⟩

/-- An entry that sorts at or before another has at least as many trips. -/
theorem lbKeyLE_trips_le (x y : LeaderboardEntry) :
    lbKeyLE x y = true → y.total_trips ≤ x.total_trips := by
  simp only [lbKeyLE, decide_eq_true_eq]
  rintro (h | ⟨h, -⟩) <;> omega

theorem length_assignRanks (n : Nat) (l : List LeaderboardEntry) :
    (assignRanks n l).length = l.length := by
  induction l generalizing n with
  | nil => rfl
  | cons e es ih => simp [assignRanks, ih]

theorem getElem?_assignRanks (n : Nat) (l : List LeaderboardEntry) (i : Nat) :
    (assignRanks n l)[i]? = l[i]?.map fun e => { e with rank := n + i } := by
  induction l generalizing n i with
  | nil => simp [assignRanks]
  | cons e es ih =>
    cases i with
    | zero => simp [assignRanks]
    | succ j =>
      simp only [assignRanks, List.getElem?_cons_succ, ih (n + 1) j]
      cases es[j]? with
      | none => simp
      | some e => simp; omega

theorem map_rank_assignRanks (n : Nat) (l : List LeaderboardEntry) :
    (assignRanks n l).map (fun e => e.rank) = List.range' n l.length := by
  induction l generalizing n with
  | nil => rfl
  | cons e es ih => simp [assignRanks, List.range', ih]

/-- **C6.** A ranker pass sorts the leaderboard entries by total trips
descending, then violations ascending, then compliance rate descending (the
sorted list is a permutation of the input, pairwise ordered by the composite
key), and assigns dense ranks `1..N` in that order: position `i` of the
output is the `i`-th entry of the sort with `rank = i + 1`, the ranks read
off as `[1, ..., N]`, and whenever entry `a` has strictly more trips than
entry `b`, `a`'s rank is strictly smaller. -/
theorem C6_ranking_pass (es : List LeaderboardEntry) :
    (update_all_rankings es).length = es.length
    ∧ (es.mergeSort lbKeyLE).Perm es
    ∧ List.Pairwise (fun a b => lbKeyLE a b = true) (es.mergeSort lbKeyLE)
    ∧ (∀ i : Nat, (update_all_rankings es)[i]?
        = ((es.mergeSort lbKeyLE)[i]?).map fun e => { e with rank := i + 1 })
    ∧ (update_all_rankings es).map (fun e => e.rank) = List.range' 1 es.length
    ∧ (∀ (i j : Nat) (a b : LeaderboardEntry),
        (update_all_rankings es)[i]? = some a →
        (update_all_rankings es)[j]? = some b →
        b.total_trips < a.total_trips → a.rank < b.rank) := by
  have hlen : (es.mergeSort lbKeyLE).length = es.length :=
    List.length_mergeSort es
  have hpair := List.sorted_mergeSort lbKeyLE_trans lbKeyLE_total es
  have hget : ∀ i : Nat, (update_all_rankings es)[i]?
      = ((es.mergeSort lbKeyLE)[i]?).map fun e => { e with rank := i + 1 } := by
    intro i
    rw [update_all_rankings, getElem?_assignRanks]
    cases (es.mergeSort lbKeyLE)[i]? <;> simp [Nat.add_comm]
  refine ⟨?_, List.mergeSort_perm es lbKeyLE, hpair, hget, ?_, ?_⟩
  · rw [update_all_rankings, length_assignRanks, hlen]
  · rw [update_all_rankings, map_rank_assignRanks, hlen]
  · intro i j a b ha hb htrips
    rw [hget i] at ha
    rw [hget j] at hb
    obtain ⟨sa, hsa, rfl⟩ := Option.map_eq_some'.mp ha
    obtain ⟨sb, hsb, rfl⟩ := Option.map_eq_some'.mp hb
    simp only at htrips ⊢
    obtain ⟨hi, hgi⟩ := List.getElem?_eq_some.mp hsa
    obtain ⟨hj, hgj⟩ := List.getElem?_eq_some.mp hsb
    have hij : i < j := by
      by_contra hc
      push_neg at hc
      rcases Nat.lt_or_ge j i with hji | hji
      · have hk := List.pairwise_iff_getElem.mp hpair j i hj hi hji
        rw [hgi, hgj] at hk
        have := lbKeyLE_trips_le sb sa hk
        omega
      · have : i = j := le_antisymm hji hc
        subst this
        rw [hgi] at hgj
        subst hgj
        omega
    omega

unseal List.mergeSort List.merge in
/-- Witness for C6 on a concrete three-entry board: the ranked output places
the 5-trip entries above the 3-trip one, so rank 1 beats rank 3. -/
theorem C6_ranking_pass_witness :
    ((⟨5, 0, 90, 1⟩ : LeaderboardEntry)).rank
      < ((⟨3, 2, 50, 3⟩ : LeaderboardEntry)).rank :=
  (C6_ranking_pass
      [⟨3, 2, 50, 0⟩, ⟨5, 0, 90, 0⟩, ⟨5, 1, 80, 0⟩]).2.2.2.2.2 0 2
    ⟨5, 0, 90, 1⟩ ⟨3, 2, 50, 3⟩ (by decide) (by decide) (by decide)

/-- **C8.** Across the public operations, neither ledger counter ever
decreases: each sensor-processing endpoint adds a non-negative delta to
`tokens_earned` and leaves `tokens_spent` unchanged, and each accepted spend
of a (per the `SpendRequest` interface, non-negative) amount leaves
`tokens_earned` unchanged and does not decrease `tokens_spent`. -/
theorem C8_counters_monotone :
    (∀ (e : SensorEventDW) (vt : VehicleType) (t : RewardToken),
      t.tokens_earned
          ≤ ((process_sensor_data_dw e vt (some t)).2.1).tokens_earned
      ∧ ((process_sensor_data_dw e vt (some t)).2.1).tokens_spent
          = t.tokens_spent)
    ∧ (∀ (e : SensorEventDW) (vt : VehicleType) (ledger : Option RewardToken),
        0 ≤ (process_sensor_data_dw e vt ledger).2.2)
    ∧ (∀ (e' : SensorEventET) (vt' : VehicleType) (t : RewardToken)
        (out : ComplianceRecord × RewardToken × Int),
        process_sensor_data_et e' vt' (some t) = Except.ok out →
        t.tokens_earned ≤ out.2.1.tokens_earned
        ∧ out.2.1.tokens_spent = t.tokens_spent)
    ∧ (∀ (t : RewardToken) (a : Int) (t' : RewardToken), 0 ≤ a →
        spend_tokens_dw t a = Except.ok t' →
        t'.tokens_earned = t.tokens_earned
        ∧ t.tokens_spent ≤ t'.tokens_spent)
    ∧ (∀ (t : RewardToken) (a : Int) (t' : RewardToken), 0 ≤ a →
        spend_tokens_et t a = Except.ok t' →
        t'.tokens_earned = t.tokens_earned
        ∧ t.tokens_spent ≤ t'.tokens_spent) := by
  refine ⟨?_, ?_, ?_, ?_, ?_⟩
  · intro e vt t
    constructor
    · simp only [process_sensor_data_dw]
      have : (0 : Int) ≤
          (if calculate_compliance_score ((dwRecordFields e vt).save) ≥ 90 then (10 : Int)
            else if calculate_compliance_score ((dwRecordFields e vt).save) ≥ 70 then 5
            else if calculate_compliance_score ((dwRecordFields e vt).save) ≥ 50 then 2
            else 0) := by
        split_ifs <;> norm_num
      omega
    · rfl
  · intro e vt ledger
    simp only [process_sensor_data_dw]
    split_ifs <;> norm_num
  · intro e' vt' t out h
    cases het : etRecordFields e' vt' with
    | error s =>
      rw [process_sensor_data_et, het] at h
      simp at h
    | ok fields =>
      rw [process_sensor_data_et, het] at h
      simp only [Except.ok.injEq] at h
      subst h
      constructor
      · simp only
        have : (0 : Int) ≤
            (if (fields.save).compliance_score ≥ 90 then (5 : Int)
              else if (fields.save).compliance_score ≥ 80 then 3
              else if (fields.save).compliance_score ≥ 70 then 1
              else 0) := by
          split_ifs <;> norm_num
        omega
      · rfl
  · intro t a t' ha h
    rw [spend_tokens_dw] at h
    split at h
    · cases h
    · simp only [Except.ok.injEq] at h
      subst h
      exact ⟨rfl, by simp; omega⟩
  · intro t a t' ha h
    rw [spend_tokens_et] at h
    split at h
    · cases h
    · simp only [Except.ok.injEq] at h
      subst h
      exact ⟨rfl, by simp; omega⟩

/-- Witness for C8 at concrete inputs: processing an `other` event on the
ledger `(3, 1)` and spending 7 from the ledger `(10, 3)`. -/
theorem C8_counters_monotone_witness :
    ((3 : Int) ≤ ((process_sensor_data_dw ⟨"other", none⟩
        VehicleType.two_wheeler (some ⟨3, 1⟩)).2.1).tokens_earned)
    ∧ ((3 : Int) ≤ (⟨⟨none, none, false, false, false, false,
        ViolationType.no_violation, Severity.low, 100⟩, ⟨8, 1⟩, 5⟩ :
        ComplianceRecord × RewardToken × Int).2.1.tokens_earned)
    ∧ ((3 : Int) ≤ (⟨10, 10⟩ : RewardToken).tokens_spent
        ∧ (⟨10, 10⟩ : RewardToken).tokens_earned = (10 : Int)) := by
  have h1 := (C8_counters_monotone.1 ⟨"other", none⟩
    VehicleType.two_wheeler ⟨3, 1⟩).1
  have h2 := C8_counters_monotone.2.2.1 ⟨"other", none, none, false, false⟩
    VehicleType.two_wheeler ⟨3, 1⟩
    ⟨⟨none, none, false, false, false, false, ViolationType.no_violation,
      Severity.low, 100⟩, ⟨8, 1⟩, 5⟩ (by rfl)
  have h3 := C8_counters_monotone.2.2.2.1 ⟨10, 3⟩ 7 ⟨10, 10⟩
    (by norm_num) (by rfl)
  exact ⟨h1, h2.1, h3.2, h3.1⟩

/-- **C9.** A record created through the drivewise sensor-processing endpoint
always keeps the field defaults `violation_type = 'no_violation'` and
`severity = 'low'`; consequently, a vehicle whose records all come from this
flow has `total_violations = 0` and `compliance_rate = 100.0`, no matter what
penalties its scores reflect. -/
theorem C9_flow_records_never_count_as_violations
    (events : List SensorEventDW) (vt : VehicleType)
    (ls : SensorEventDW → Option RewardToken) :
    (∀ (e : SensorEventDW) (ledger : Option RewardToken),
      (process_sensor_data_dw e vt ledger).1.violation_type
          = ViolationType.no_violation
      ∧ (process_sensor_data_dw e vt ledger).1.severity = Severity.low)
    ∧ total_violations
        (events.map fun e => (process_sensor_data_dw e vt (ls e)).1) = 0
    ∧ compliance_rate
        (events.map fun e => (process_sensor_data_dw e vt (ls e)).1) = 100 := by
  have hfilter : (events.map fun e =>
      (process_sensor_data_dw e vt (ls e)).1).filter (fun r =>
        r.violation_type = ViolationType.speed_violation
          ∨ r.violation_type = ViolationType.horn_violation
          ∨ r.violation_type = ViolationType.seatbelt_violation) = [] := by
    rw [List.filter_eq_nil_iff]
    intro r hr
    rw [List.mem_map] at hr
    obtain ⟨e, -, rfl⟩ := hr
    simp [process_sensor_data_dw, ComplianceRecord.save, dwRecordFields]
  have hviol : total_violations
      (events.map fun e => (process_sensor_data_dw e vt (ls e)).1) = 0 := by
    rw [total_violations, hfilter]
    rfl
  refine ⟨fun e ledger => ⟨rfl, rfl⟩, hviol, ?_⟩
  rw [compliance_rate]
  split_ifs with h
  · rfl
  · rw [hviol]
    rw [total_trips] at h ⊢
    have hn : ((events.map fun e =>
        (process_sensor_data_dw e vt (ls e)).1).length : ℚ) ≠ 0 := by
      exact_mod_cast h
    have : (((events.map fun e =>
          (process_sensor_data_dw e vt (ls e)).1).length : ℚ) - ((0 : ℕ) : ℚ))
        / ((events.map fun e =>
          (process_sensor_data_dw e vt (ls e)).1).length : ℚ) * 100 = 100 := by
      rw [Nat.cast_zero, sub_zero, div_self hn, one_mul]
    rw [this, round2]
    have h100 : ((100 : ℚ) * 100) = ((10000 : ℤ) : ℚ) := by norm_num
    rw [h100, round_intCast]
    norm_num

/-- **C10.** The drivewise endpoint stores the same value (the event's
`drive_value`, default 0) in both `speed_limit` and `actual_speed` for a
`speed_limit` event and `None` in both for every other sign type, so
`actual_speed > speed_limit` never holds and the speed penalty is
unreachable through that endpoint; the session-keyed endpoint, which reads
`actual_speed` from the payload, can incur it (witnessed by a
`speed_limit=40, actual_speed=65` event scoring `100 - 30 = 70`). -/
theorem C10_dw_speed_penalty_unreachable :
    (∀ (e : SensorEventDW) (vt : VehicleType) (ledger : Option RewardToken),
      speedPenalty (process_sensor_data_dw e vt ledger).1 = 0
      ∧ (process_sensor_data_dw e vt ledger).1.speed_limit
          = (process_sensor_data_dw e vt ledger).1.actual_speed
      ∧ (e.sign_type = "speed_limit" →
          (process_sensor_data_dw e vt ledger).1.speed_limit
            = some (e.drive_value.getD 0))
      ∧ (e.sign_type ≠ "speed_limit" →
          (process_sensor_data_dw e vt ledger).1.speed_limit = none))
    ∧ (∃ (e' : SensorEventET) (vt' : VehicleType)
        (out : ComplianceRecord × RewardToken × Int),
        process_sensor_data_et e' vt' none = Except.ok out
        ∧ speedPenalty out.1 = 30
        ∧ out.1.compliance_score = 70) := by
  constructor
  · intro e vt ledger
    have hrec : (process_sensor_data_dw e vt ledger).1
        = (dwRecordFields e vt).save := rfl
    refine ⟨?_, ?_, ?_, ?_⟩
    · rw [hrec]
      simp only [speedPenalty, ComplianceRecord.save, dwRecordFields]
      split_ifs <;> simp_all
    · rfl
    · intro h
      rw [hrec]
      simp [ComplianceRecord.save, dwRecordFields, h]
    · intro h
      rw [hrec]
      simp [ComplianceRecord.save, dwRecordFields, h]
  · refine ⟨⟨"speed_limit", some "40", some 65, false, false⟩,
      VehicleType.two_wheeler,
      ⟨⟨some 40, some 65, false, false, false, false,
        ViolationType.no_violation, Severity.low, 70⟩, ⟨1, 0⟩, 1⟩,
      by rfl, by decide, by decide⟩

/-- Witness for C10's universally quantified part at concrete events: a
`speed_limit` event with `drive_value = 40` stores `some 40` in both speed
columns, and a `no_horn` event stores `none`. -/
theorem C10_dw_speed_penalty_unreachable_witness :
    (process_sensor_data_dw ⟨"speed_limit", some 40⟩
        VehicleType.two_wheeler none).1.speed_limit = some 40
    ∧ (process_sensor_data_dw ⟨"no_horn", some 1⟩
        VehicleType.two_wheeler none).1.speed_limit = none
    ∧ process_sensor_data_et ⟨"speed_limit", some "40", some 65, false, false⟩
        VehicleType.two_wheeler none
      = Except.ok ⟨⟨some 40, some 65, false, false, false, false,
          ViolationType.no_violation, Severity.low, 70⟩, ⟨1, 0⟩, 1⟩ := by
  refine ⟨?_, ?_, by rfl⟩
  · exact ((C10_dw_speed_penalty_unreachable.1 ⟨"speed_limit", some 40⟩
      VehicleType.two_wheeler none).2.2.1 rfl)
  · exact ((C10_dw_speed_penalty_unreachable.1 ⟨"no_horn", some 1⟩
      VehicleType.two_wheeler none).2.2.2 (by decide))

end Companion
